import Mathlib

/-!
Verification of the HeartRate-Display BLE client (src/main.rs).

The decoder `parse_heart_rate_data` is embedded as a function over byte
lists.  Bytes are modelled as `Fin 256` (the Rust `u8`).  Every slice index
of the source is rendered as a bounds-checked access: an out-of-bounds
access would surface as `Except.error ()`, the analogue of a Rust panic,
so totality of the decoder is the statement that the error case is
unreachable.  The successful result is `Option Nat`: `some bpm` for a
decoded reading, `none` where the source returns Rust `None`.
-/

abbrev Byte := Fin 256

/-- Model of `u16::from_le_bytes([lo, hi])`: the little-endian 16-bit value. -/
def u16_from_le_bytes (lo hi : Byte) : Nat := lo.val + 256 * hi.val

/-- standard heart-rate service UUID 0x180D, modelled as its 16-bit alias. -/
def HEART_RATE_SERVICE_UUID : Nat := 0x180D

/-- heart-rate measurement characteristic UUID 0x2A37, as its 16-bit alias. -/
def HEART_RATE_MEASUREMENT_UUID : Nat := 0x2A37

/-- Embedding of `parse_heart_rate_data` from src/main.rs lines 14-39.
Outer `Except.error ()` marks an out-of-bounds slice access (a Rust panic);
`Except.ok none` is the Rust `None`; `Except.ok (some v)` is `Some(v)`. -/
def parse_heart_rate_data (data : List Byte) : Except Unit (Option Nat) :=
  if data.isEmpty then
    Except.ok none
  else
    match data.get? 0 with
    | none => Except.error ()
    | some flags =>
      let is_16bit_hr : Bool := (flags.val &&& 0x01) != 0
      if is_16bit_hr then
        if data.length < 3 then
          Except.ok none
        else
          match data.get? 1, data.get? 2 with
          | some b1, some b2 => Except.ok (some (u16_from_le_bytes b1 b2))
          | _, _ => Except.error ()
      else
        if data.length < 2 then
          Except.ok none
        else
          match data.get? 1 with
          | some b1 => Except.ok (some b1.val)
          | none => Except.error ()

/-- Helper: the decoder never reaches the panic marker on any input. -/
theorem parse_total_aux (data : List Byte) :
    ∃ r : Option Nat, parse_heart_rate_data data = Except.ok r := by
  match data with
  | [] => exact ⟨none, rfl⟩
  | [f] =>
    by_cases h : f.val % 2 = 1 <;>
      simp [parse_heart_rate_data, Nat.and_one_is_mod, h]
  | [f, b1] =>
    by_cases h : f.val % 2 = 1 <;>
      simp [parse_heart_rate_data, Nat.and_one_is_mod, h]
  | f :: b1 :: b2 :: rest =>
    by_cases h : f.val % 2 = 1 <;>
      simp [parse_heart_rate_data, Nat.and_one_is_mod, h] <;>
      rw [if_neg (by omega)] <;> exact ⟨_, rfl⟩

/-- C1: a payload whose flags byte has bit 0 clear and which has at least
one value byte decodes to the 8-bit reading in byte 1, whatever trailing
bytes follow. -/
theorem c1_decode_8bit (flags b1 : Byte) (rest : List Byte)
    (h : flags.val &&& 0x01 = 0) :
    parse_heart_rate_data (flags :: b1 :: rest) = Except.ok (some b1.val) := by
  rw [Nat.and_one_is_mod] at h
  simp [parse_heart_rate_data, Nat.and_one_is_mod, h]

/-- Witness for C1 at the concrete spec vector decode([0x00, 72, 99]). -/
theorem c1_decode_8bit_witness :
    parse_heart_rate_data [(0 : Byte), 72, 99] = Except.ok (some 72) :=
  c1_decode_8bit 0 72 [99] (by decide)

/-- C2: a payload whose flags byte has bit 0 set and which has two value
bytes decodes to the little-endian 16-bit reading from bytes 1 and 2,
whatever trailing bytes follow. -/
theorem c2_decode_16bit (flags b1 b2 : Byte) (rest : List Byte)
    (h : flags.val &&& 0x01 ≠ 0) :
    parse_heart_rate_data (flags :: b1 :: b2 :: rest) =
      Except.ok (some (u16_from_le_bytes b1 b2)) := by
  rw [Nat.and_one_is_mod] at h
  have h1 : flags.val % 2 = 1 := by omega
  simp [parse_heart_rate_data, Nat.and_one_is_mod, h1]

/-- Witness for C2 at the concrete spec vector decode([0x01, 72, 0]). -/
theorem c2_decode_16bit_witness :
    parse_heart_rate_data [(1 : Byte), 72, 0] = Except.ok (some 72) :=
  c2_decode_16bit 1 72 0 [] (by decide)

/-- C3 counterexample: the source decoder has a single failure value, not
distinct Empty and Truncated kinds: decoding the empty payload and decoding
[0x01] produce the identical result None. -/
theorem c3_no_distinct_error_kinds :
    parse_heart_rate_data [] = parse_heart_rate_data [(1 : Byte)] ∧
      parse_heart_rate_data [] = Except.ok none := by
  constructor <;> rfl

/-- C3 amended: the decoder fails, with the single failure value None and
never a reading, exactly on the payloads that are empty or too short for
the width the flags byte declares. -/
theorem c3_failure_iff_short (data : List Byte) :
    parse_heart_rate_data data = Except.ok none ↔
      data.length < 2 ∨
        ((data.headD 0).val &&& 0x01 ≠ 0 ∧ data.length < 3) := by
  match data with
  | [] => simp [parse_heart_rate_data]
  | [f] =>
    by_cases h : f.val % 2 = 1 <;>
      simp [parse_heart_rate_data, Nat.and_one_is_mod, h]
  | [f, b1] =>
    by_cases h : f.val % 2 = 1 <;>
      simp [parse_heart_rate_data, Nat.and_one_is_mod, h]
  | f :: b1 :: b2 :: rest =>
    by_cases h : f.val % 2 = 1 <;>
      simp [parse_heart_rate_data, Nat.and_one_is_mod, h]

/-- C10: the decoder is total: on every byte list, each access is guarded by
a length check, so the result is an ordinary value and the panic marker is
never produced. -/
theorem c10_parse_total (data : List Byte) :
    ∃ r : Option Nat, parse_heart_rate_data data = Except.ok r :=
  parse_total_aux data

/-!
Model of the scanner `find_heart_rate_device` and of the orchestration in
`main` (src/main.rs lines 42-126).  The external BLE transport is an
oracle: a `Device` records, for one peripheral, the answer the transport
would give to each call the program can make, and an `AdapterInput` records
the answers of the adapter.  Running the program against the oracle yields
the list of transport calls and emissions it performs, in order, together
with its result.  Rust `Result::Err` values surfaced through the question
mark operator are modelled as `RunError.transport`; the two `anyhow` error
sites of the scanner and characteristic lookup get their own kinds.
-/

/-- Advertisement data of a peripheral, from btleplug PeripheralProperties:
only the fields the source reads. -/
structure PeripheralProperties where
  services : List Nat
  local_name : Option String

/-- One entry of the characteristic table: its UUID and whether its
properties contain the NOTIFY capability flag. -/
structure Characteristic where
  uuid : Nat
  notify : Bool

/-- Transport oracle for one peripheral: the answer to each call the
program can make on it.  An outer `none` models a transport error. -/
structure Device where
  address : Nat
  properties_result : Option (Option PeripheralProperties)
  is_connected_result : Option Bool
  connect_result : Bool
  discover_services_result : Bool
  characteristics : List Characteristic
  subscribe_result : Bool
  notifications_result : Option (List (List Byte))
  disconnect_result : Bool

/-- Transport oracle for the adapter: whether start_scan succeeds and what
peripherals() returns (`none` models a transport error). -/
structure AdapterInput where
  start_scan_ok : Bool
  peripherals_result : Option (List Device)

/-- Observable steps of a run: transport calls and sink emissions, in
program order.  `stopScan` is the stop-scan transport call; the source has
no call site for it, so the constructor lets theorems state its absence. -/
inductive Act where
  | startScan
  | stopScan
  | sleepScanWindow
  | listPeripherals
  | queryProperties (addr : Nat)
  | isConnected (addr : Nat)
  | connect (addr : Nat)
  | discoverServices
  | subscribe
  | disconnect
  | emitReading (bpm : Nat)
  | emitDecodeDiagnostic (payload : List Byte)
deriving DecidableEq

/-- Error result of a run, one kind per abort site of `main`. -/
inductive RunError where
  | transport
  | deviceNotFound
  | characteristicUnsupported
deriving DecidableEq

/-- Loop body of the scanner (src/main.rs lines 49-59): query each
peripheral in turn; a transport error or absent properties aborts the whole
scan with `none` via the double question mark; otherwise the first
peripheral whose advertised services contain the heart-rate UUID is
returned. -/
def scanLoop : List Device → List Act × Option Device
  | [] => ([], none)
  | p :: rest =>
    match p.properties_result with
    | none => ([Act.queryProperties p.address], none)
    | some none => ([Act.queryProperties p.address], none)
    | some (some props) =>
      if props.services.contains HEART_RATE_SERVICE_UUID then
        ([Act.queryProperties p.address], some p)
      else
        let r := scanLoop rest
        (Act.queryProperties p.address :: r.1, r.2)

/-- Embedding of `find_heart_rate_device` (src/main.rs lines 42-62):
start a scan, wait the fixed window, then run the enumeration loop. -/
def find_heart_rate_device (a : AdapterInput) : List Act × Option Device :=
  if a.start_scan_ok then
    match a.peripherals_result with
    | none => ([Act.startScan, Act.sleepScanWindow, Act.listPeripherals], none)
    | some ps =>
      let r := scanLoop ps
      (Act.startScan :: Act.sleepScanWindow :: Act.listPeripherals :: r.1, r.2)
  else
    ([Act.startScan], none)

/-- Consume loop of `main` (src/main.rs lines 113-119): one emission per
notification payload, a reading on decode success and a diagnostic
otherwise.  The decoder never yields its panic marker (see
`parse_total_aux`), so that case is dead and mapped with the failure
branch. -/
def consumeLoop : List (List Byte) → List Act
  | [] => []
  | v :: rest =>
    (match parse_heart_rate_data v with
      | Except.ok (some hr) => Act.emitReading hr
      | _ => Act.emitDecodeDiagnostic v) :: consumeLoop rest

/-- Steps 5-8 of `main` (src/main.rs lines 92-125), entered once the
connect step succeeded with accumulated trace `tr`: discover services,
look up the notify-capable heart-rate measurement characteristic,
subscribe, consume the stream, then disconnect. -/
def afterConnect (d : Device) (tr : List Act) : List Act × Except RunError Unit :=
  let tr2 := tr ++ [Act.discoverServices]
  if d.discover_services_result then
    match List.find? (fun c => c.uuid == HEART_RATE_MEASUREMENT_UUID && c.notify) d.characteristics with
    | some _ =>
      let tr3 := tr2 ++ [Act.subscribe]
      if d.subscribe_result then
        match d.notifications_result with
        | some payloads =>
          let tr4 := tr3 ++ consumeLoop payloads ++ [Act.disconnect]
          if d.disconnect_result then (tr4, Except.ok ())
          else (tr4, Except.error RunError.transport)
        | none => (tr3, Except.error RunError.transport)
      else (tr3, Except.error RunError.transport)
    | none => (tr2, Except.error RunError.characteristicUnsupported)
  else (tr2, Except.error RunError.transport)

/-- Steps 4-8 of `main` (src/main.rs lines 86-125) on a found device: dial
only when not already connected, then continue with `afterConnect`. -/
def runFromDevice (d : Device) : List Act × Except RunError Unit :=
  match d.is_connected_result with
  | none => ([Act.isConnected d.address], Except.error RunError.transport)
  | some true => afterConnect d [Act.isConnected d.address]
  | some false =>
    if d.connect_result then
      afterConnect d [Act.isConnected d.address, Act.connect d.address]
    else
      ([Act.isConnected d.address, Act.connect d.address],
        Except.error RunError.transport)

/-- Orchestration of `main` from the scan on (src/main.rs lines 79-125):
scan, abort when no device is found, otherwise run the connect-to-teardown
sequence on the found device. -/
def mainRun (a : AdapterInput) : List Act × Except RunError Unit :=
  let r := find_heart_rate_device a
  match r.2 with
  | none => (r.1, Except.error RunError.deviceNotFound)
  | some d =>
    let r2 := runFromDevice d
    (r.1 ++ r2.1, r2.2)

/-- Holds of the sink emissions made inside the consume loop. -/
def isLoopEvent : Act → Bool
  | Act.emitReading _ => true
  | Act.emitDecodeDiagnostic _ => true
  | _ => false

/-- Holds exactly of the disconnect transport call. -/
def isDisconnect : Act → Bool
  | Act.disconnect => true
  | _ => false

/-- Number of disconnect calls in a trace. -/
def countDisconnect (tr : List Act) : Nat := (tr.filter isDisconnect).length

/-- Whether the transport reports this peripheral as advertising the
heart-rate service: the loop condition of the scanner, over the oracle. -/
def hasHRService (p : Device) : Bool :=
  match p.properties_result with
  | some (some props) => props.services.contains HEART_RATE_SERVICE_UUID
  | _ => false

/-- Setup phase succeeds end to end: the connect step, service discovery,
characteristic lookup and subscription all go through. -/
def setupOk (d : Device) : Prop :=
  (d.is_connected_result = some true ∨
    (d.is_connected_result = some false ∧ d.connect_result = true)) ∧
  d.discover_services_result = true ∧
  (List.find? (fun c => c.uuid == HEART_RATE_MEASUREMENT_UUID && c.notify) d.characteristics).isSome = true ∧
  d.subscribe_result = true

/-- Every action emitted by the consume loop is a sink emission. -/
theorem mem_consumeLoop (ps : List (List Byte)) (e : Act)
    (he : e ∈ consumeLoop ps) : isLoopEvent e = true := by
  induction ps with
  | nil => simp [consumeLoop] at he
  | cons v rest ih =>
    simp only [consumeLoop, List.mem_cons] at he
    rcases he with he | he
    · subst he
      cases hv : parse_heart_rate_data v with
      | error u => simp [hv, isLoopEvent]
      | ok o => cases o <;> simp [hv, isLoopEvent]
    · exact ih he

/-- The consume loop emits exactly one action per notification payload. -/
theorem consumeLoop_length (ps : List (List Byte)) :
    (consumeLoop ps).length = ps.length := by
  induction ps with
  | nil => rfl
  | cons v rest ih => simp [consumeLoop, ih]

/-- A payload of the stream that decodes to the failure value gets a
diagnostic emission in the consume loop. -/
theorem consumeLoop_diag (ps : List (List Byte)) (v : List Byte)
    (hv : v ∈ ps) (hfail : parse_heart_rate_data v = Except.ok none) :
    Act.emitDecodeDiagnostic v ∈ consumeLoop ps := by
  induction ps with
  | nil => simp at hv
  | cons w rest ih =>
    rcases List.mem_cons.mp hv with h | h
    · subst h
      simp [consumeLoop, hfail]
    · simp only [consumeLoop, List.mem_cons]
      exact Or.inr (ih h)

/-- Shape of the trace extension of the post-connect phase: it always
appends the service-discovery call first, and everything after that is a
subscribe call, a disconnect call or a sink emission. -/
theorem afterConnect_shape (d : Device) (tr : List Act) :
    ∃ mid : List Act,
      (afterConnect d tr).1 = tr ++ Act.discoverServices :: mid ∧
      ∀ e ∈ mid, e = Act.subscribe ∨ e = Act.disconnect ∨ isLoopEvent e = true := by
  unfold afterConnect
  by_cases h1 : d.discover_services_result = true
  · simp only [h1, if_true]
    cases hfind : List.find? (fun c => c.uuid == HEART_RATE_MEASUREMENT_UUID && c.notify) d.characteristics with
    | none => exact ⟨[], by simp, by simp⟩
    | some c =>
      by_cases h2 : d.subscribe_result = true
      · simp only [h2, if_true]
        cases hnot : d.notifications_result with
        | none => exact ⟨[Act.subscribe], by simp, by simp⟩
        | some payloads =>
          refine ⟨Act.subscribe :: (consumeLoop payloads ++ [Act.disconnect]), ?_, ?_⟩
          · by_cases h3 : d.disconnect_result = true <;> simp [h3]
          · intro e he
            simp [List.mem_append] at he
            rcases he with he | he | he
            · exact Or.inl he
            · exact Or.inr (Or.inr (mem_consumeLoop payloads e he))
            · exact Or.inr (Or.inl he)
      · exact ⟨[Act.subscribe], by simp [h2], by simp⟩
  · exact ⟨[], by simp [h1], by simp⟩

/-- Vocabulary of the connect-to-teardown trace: every action concerns the
found device, and is one of the five transport calls or a sink emission. -/
theorem runFromDevice_mem (d : Device) (e : Act)
    (he : e ∈ (runFromDevice d).1) :
    e = Act.isConnected d.address ∨ e = Act.connect d.address ∨
      e = Act.discoverServices ∨ e = Act.subscribe ∨ e = Act.disconnect ∨
      isLoopEvent e = true := by
  unfold runFromDevice at he
  cases hic : d.is_connected_result with
  | none =>
    rw [hic] at he
    simp at he
    exact Or.inl he
  | some b =>
    rw [hic] at he
    cases b with
    | true =>
      obtain ⟨mid, hshape, hmid⟩ := afterConnect_shape d [Act.isConnected d.address]
      simp only [hshape] at he
      simp only [List.mem_append, List.mem_cons, List.mem_singleton] at he
      rcases he with he | he | he
      · simp at he; exact Or.inl he
      · exact Or.inr (Or.inr (Or.inl he))
      · rcases hmid e he with h | h | h
        · exact Or.inr (Or.inr (Or.inr (Or.inl h)))
        · exact Or.inr (Or.inr (Or.inr (Or.inr (Or.inl h))))
        · exact Or.inr (Or.inr (Or.inr (Or.inr (Or.inr h))))
    | false =>
      by_cases hc : d.connect_result = true
      · simp only [hc, if_true] at he
        obtain ⟨mid, hshape, hmid⟩ := afterConnect_shape d [Act.isConnected d.address, Act.connect d.address]
        simp only [hshape] at he
        simp only [List.mem_append, List.mem_cons, List.mem_singleton] at he
        rcases he with he | he | he
        · simp at he
          rcases he with h | h
          · exact Or.inl h
          · exact Or.inr (Or.inl h)
        · exact Or.inr (Or.inr (Or.inl he))
        · rcases hmid e he with h | h | h
          · exact Or.inr (Or.inr (Or.inr (Or.inl h)))
          · exact Or.inr (Or.inr (Or.inr (Or.inr (Or.inl h))))
          · exact Or.inr (Or.inr (Or.inr (Or.inr (Or.inr h))))
      · simp only [hc, if_false] at he
        simp at he
        rcases he with h | h
        · exact Or.inl h
        · exact Or.inr (Or.inl h)

/-- Scanner loop trace vocabulary: it only queries advertisement data. -/
theorem scanLoop_mem (ps : List Device) (e : Act)
    (he : e ∈ (scanLoop ps).1) : ∃ ad, e = Act.queryProperties ad := by
  induction ps with
  | nil => simp [scanLoop] at he
  | cons p rest ih =>
    unfold scanLoop at he
    cases hp : p.properties_result with
    | none =>
      rw [hp] at he
      simp at he
      exact ⟨p.address, he⟩
    | some o =>
      rw [hp] at he
      cases o with
      | none =>
        simp at he
        exact ⟨p.address, he⟩
      | some props =>
        by_cases hcont : HEART_RATE_SERVICE_UUID ∈ props.services
        · simp [hcont] at he
          exact ⟨p.address, he⟩
        · simp [hcont] at he
          rcases he with h | h
          · exact ⟨p.address, h⟩
          · exact ih h

/-- When no peripheral of the enumeration advertises the heart-rate
service, the scanner loop finds nothing. -/
theorem scanLoop_none (ps : List Device)
    (h : ∀ p ∈ ps, hasHRService p = false) : (scanLoop ps).2 = none := by
  induction ps with
  | nil => rfl
  | cons p rest ih =>
    have hp := h p (List.mem_cons_self p rest)
    unfold scanLoop
    cases hpr : p.properties_result with
    | none => simp
    | some o =>
      cases o with
      | none => simp
      | some props =>
        have hcont : HEART_RATE_SERVICE_UUID ∉ props.services := by
          unfold hasHRService at hp
          rw [hpr] at hp
          simpa using hp
        simp [hcont]
        exact ih (fun q hq => h q (List.mem_cons_of_mem p hq))

/-- Scanner trace vocabulary: a scan start, the fixed wait, the peripheral
enumeration and advertisement queries; nothing else, in particular no scan
stop and no connect. -/
theorem find_heart_rate_device_mem (a : AdapterInput) (e : Act)
    (he : e ∈ (find_heart_rate_device a).1) :
    e = Act.startScan ∨ e = Act.sleepScanWindow ∨ e = Act.listPeripherals ∨
      ∃ ad, e = Act.queryProperties ad := by
  unfold find_heart_rate_device at he
  by_cases h1 : a.start_scan_ok = true
  · simp only [h1, if_true] at he
    cases hp : a.peripherals_result with
    | none =>
      rw [hp] at he
      simp at he
      tauto
    | some ps =>
      rw [hp] at he
      simp at he
      rcases he with h | h | h | h
      · exact Or.inl h
      · exact Or.inr (Or.inl h)
      · exact Or.inr (Or.inr (Or.inl h))
      · exact Or.inr (Or.inr (Or.inr (scanLoop_mem ps e h)))
  · simp only [Bool.not_eq_true] at h1
    simp [h1] at he
    exact Or.inl he

/-- When discovery, characteristic lookup, subscription and stream
acquisition all succeed, the post-connect trace is exactly discovery,
subscription, one loop emission per payload, then the disconnect call. -/
theorem afterConnect_success_trace (d : Device) (tr : List Act) (ps : List (List Byte))
    (hdisc : d.discover_services_result = true)
    (hchar : (List.find? (fun c => c.uuid == HEART_RATE_MEASUREMENT_UUID && c.notify) d.characteristics).isSome = true)
    (hsub : d.subscribe_result = true)
    (hnot : d.notifications_result = some ps) :
    (afterConnect d tr).1 =
      tr ++ Act.discoverServices :: Act.subscribe :: (consumeLoop ps ++ [Act.disconnect]) := by
  obtain ⟨c, hc⟩ := Option.isSome_iff_exists.mp hchar
  unfold afterConnect
  rw [hc, hnot]
  by_cases hd : d.disconnect_result = true <;> simp [hdisc, hsub, hd]

/-- Trace of a run whose setup succeeds end to end: a connect-step prefix,
then discovery, subscription, the per-payload emissions, then exactly the
final disconnect call. -/
theorem runFromDevice_success_trace (d : Device) (ps : List (List Byte))
    (hconn : d.is_connected_result = some true ∨
      (d.is_connected_result = some false ∧ d.connect_result = true))
    (hdisc : d.discover_services_result = true)
    (hchar : (List.find? (fun c => c.uuid == HEART_RATE_MEASUREMENT_UUID && c.notify) d.characteristics).isSome = true)
    (hsub : d.subscribe_result = true)
    (hnot : d.notifications_result = some ps) :
    ∃ tr0 : List Act,
      (∀ e ∈ tr0, e = Act.isConnected d.address ∨ e = Act.connect d.address) ∧
      (runFromDevice d).1 =
        tr0 ++ Act.discoverServices :: Act.subscribe :: (consumeLoop ps ++ [Act.disconnect]) := by
  rcases hconn with h | ⟨h, hcr⟩
  · refine ⟨[Act.isConnected d.address], by simp, ?_⟩
    unfold runFromDevice
    rw [h]
    exact afterConnect_success_trace d _ ps hdisc hchar hsub hnot
  · refine ⟨[Act.isConnected d.address, Act.connect d.address], ?_, ?_⟩
    · intro e he
      simp at he
      tauto
    · unfold runFromDevice
      rw [h]
      simp only [hcr, if_true]
      exact afterConnect_success_trace d _ ps hdisc hchar hsub hnot

/-- C4: when setup succeeds, the consume loop survives every payload: it
makes exactly one emission per received notification, a malformed payload
gets a diagnostic emission rather than ending the run, and the loop still
reaches the teardown that follows stream end. -/
theorem c4_decode_failures_nonfatal (d : Device) (ps : List (List Byte))
    (hconn : d.is_connected_result = some true ∨
      (d.is_connected_result = some false ∧ d.connect_result = true))
    (hdisc : d.discover_services_result = true)
    (hchar : (List.find? (fun c => c.uuid == HEART_RATE_MEASUREMENT_UUID && c.notify) d.characteristics).isSome = true)
    (hsub : d.subscribe_result = true)
    (hnot : d.notifications_result = some ps) :
    (List.filter isLoopEvent (runFromDevice d).1).length = ps.length ∧
      (∀ v ∈ ps, parse_heart_rate_data v = Except.ok none →
        Act.emitDecodeDiagnostic v ∈ (runFromDevice d).1) ∧
      Act.disconnect ∈ (runFromDevice d).1 := by
  obtain ⟨tr0, htr0, hshape⟩ := runFromDevice_success_trace d ps hconn hdisc hchar hsub hnot
  have h0 : List.filter isLoopEvent tr0 = [] := by
    rw [List.filter_eq_nil_iff]
    intro e he
    rcases htr0 e he with h | h <;> subst h <;> simp [isLoopEvent]
  have hcl : List.filter isLoopEvent (consumeLoop ps) = consumeLoop ps := by
    rw [List.filter_eq_self]
    intro e he
    exact mem_consumeLoop ps e he
  refine ⟨?_, ?_, ?_⟩
  · rw [hshape, List.filter_append]
    simp [h0, List.filter_append, hcl, isLoopEvent, consumeLoop_length]
  · intro v hv hfail
    have hd := consumeLoop_diag ps v hv hfail
    rw [hshape]
    simp [List.mem_append]
    tauto
  · rw [hshape]
    simp

/-- C5 counterexample device: the transport accepts the dial but then
fails service discovery. -/
def discoveryFailsDevice : Device where
  address := 7
  properties_result := some (some { services := [0x180D], local_name := none })
  is_connected_result := some false
  connect_result := true
  discover_services_result := false
  characteristics := []
  subscribe_result := false
  notifications_result := none
  disconnect_result := true

/-- C5 counterexample: on a run where the connection is established and a
setup-phase error follows, the orchestrator returns without ever calling
disconnect, contradicting the claim that every such termination path calls
disconnect exactly once. -/
theorem c5_counterexample :
    Act.connect 7 ∈ (runFromDevice discoveryFailsDevice).1 ∧
      (runFromDevice discoveryFailsDevice).2 = Except.error RunError.transport ∧
      countDisconnect (runFromDevice discoveryFailsDevice).1 = 0 :=
  ⟨by decide, rfl, by decide⟩

/-- C5 amended: disconnect is called exactly once on the one termination
path the source handles, stream end after a successful setup, and decode
errors in the stream never trigger teardown; a setup-phase error returns
without any disconnect call, as the counterexample shows. -/
theorem c5_disconnect_once_on_stream_end (d : Device) (ps : List (List Byte))
    (hconn : d.is_connected_result = some true ∨
      (d.is_connected_result = some false ∧ d.connect_result = true))
    (hdisc : d.discover_services_result = true)
    (hchar : (List.find? (fun c => c.uuid == HEART_RATE_MEASUREMENT_UUID && c.notify) d.characteristics).isSome = true)
    (hsub : d.subscribe_result = true)
    (hnot : d.notifications_result = some ps) :
    countDisconnect (runFromDevice d).1 = 1 := by
  obtain ⟨tr0, htr0, hshape⟩ := runFromDevice_success_trace d ps hconn hdisc hchar hsub hnot
  have h0 : List.filter isDisconnect tr0 = [] := by
    rw [List.filter_eq_nil_iff]
    intro e he
    rcases htr0 e he with h | h <;> subst h <;> simp [isDisconnect]
  have hcl : List.filter isDisconnect (consumeLoop ps) = [] := by
    rw [List.filter_eq_nil_iff]
    intro e he
    have := mem_consumeLoop ps e he
    cases e <;> simp_all [isLoopEvent, isDisconnect]
  unfold countDisconnect
  rw [hshape, List.filter_append]
  simp [h0, List.filter_append, hcl, isDisconnect]

/-- C6: when the discovered characteristic table has no entry that is the
heart-rate measurement UUID with the notify capability, the run fails with
the unsupported-characteristic error and no subscribe call is ever issued
to the transport. -/
theorem c6_characteristic_unsupported (d : Device)
    (hconn : d.is_connected_result = some true ∨
      (d.is_connected_result = some false ∧ d.connect_result = true))
    (hdisc : d.discover_services_result = true)
    (hchar : ∀ c ∈ d.characteristics,
      (c.uuid == HEART_RATE_MEASUREMENT_UUID && c.notify) = false) :
    (runFromDevice d).2 = Except.error RunError.characteristicUnsupported ∧
      Act.subscribe ∉ (runFromDevice d).1 := by
  have hfind : List.find? (fun c => c.uuid == HEART_RATE_MEASUREMENT_UUID && c.notify) d.characteristics = none := by
    rw [List.find?_eq_none]
    intro x hx
    simp [hchar x hx]
  have hafter : ∀ tr, afterConnect d tr =
      (tr ++ [Act.discoverServices], Except.error RunError.characteristicUnsupported) := by
    intro tr
    unfold afterConnect
    simp [hdisc, hfind]
  rcases hconn with h | ⟨h, hcr⟩
  · have hrun : runFromDevice d = afterConnect d [Act.isConnected d.address] := by
      unfold runFromDevice
      rw [h]
    rw [hrun, hafter]
    exact ⟨rfl, by simp⟩
  · have hrun : runFromDevice d = afterConnect d [Act.isConnected d.address, Act.connect d.address] := by
      unfold runFromDevice
      rw [h]
      simp [hcr]
    rw [hrun, hafter]
    exact ⟨rfl, by simp⟩

/-- C7: on a device the transport already reports connected, the run never
dials: no connect call appears anywhere in the trace, and the run proceeds
past the connect step into service discovery. -/
theorem c7_connect_idempotent (d : Device)
    (h : d.is_connected_result = some true) :
    (∀ ad, Act.connect ad ∉ (runFromDevice d).1) ∧
      Act.discoverServices ∈ (runFromDevice d).1 := by
  have hrun : runFromDevice d = afterConnect d [Act.isConnected d.address] := by
    unfold runFromDevice
    rw [h]
  obtain ⟨mid, hshape, hmid⟩ := afterConnect_shape d [Act.isConnected d.address]
  constructor
  · intro ad he
    rw [hrun, hshape] at he
    simp [List.mem_append] at he
    rcases hmid _ he with h1 | h1 | h1 <;> simp [isLoopEvent] at h1
  · rw [hrun, hshape]
    simp

/-- C8: when no enumerated peripheral advertises the heart-rate service,
the scanner comes back empty and the whole run issues no connect call to
any peripheral. -/
theorem c8_no_match_no_connect (a : AdapterInput) (ps : List Device)
    (h1 : a.start_scan_ok = true)
    (h2 : a.peripherals_result = some ps)
    (h3 : ∀ p ∈ ps, hasHRService p = false) :
    (find_heart_rate_device a).2 = none ∧
      ∀ ad, Act.connect ad ∉ (mainRun a).1 := by
  have hnone : (find_heart_rate_device a).2 = none := by
    unfold find_heart_rate_device
    rw [h2]
    simp [h1, scanLoop_none ps h3]
  refine ⟨hnone, ?_⟩
  intro ad he
  unfold mainRun at he
  simp only [hnone] at he
  rcases find_heart_rate_device_mem a _ he with h | h | h | ⟨x, h⟩ <;> simp at h

/-- C9 counterexample adapter: the scan starts and the enumeration comes
back empty. -/
def emptyScanAdapter : AdapterInput where
  start_scan_ok := true
  peripherals_result := some []

/-- C9 counterexample: on a successful scan that finds nothing, the
scanner returns with the scan started and never stopped, contradicting the
claim that every return path stops the active scan. -/
theorem c9_counterexample :
    (find_heart_rate_device emptyScanAdapter).2 = none ∧
      Act.startScan ∈ (find_heart_rate_device emptyScanAdapter).1 ∧
      Act.stopScan ∉ (find_heart_rate_device emptyScanAdapter).1 := by
  refine ⟨rfl, by decide, by decide⟩

/-- C9 amended: the source never calls stop-scan: no trace of any run, on
any adapter oracle, contains the stop-scan transport call, so a started
scan is left active on every return path. -/
theorem c9_scan_never_stopped (a : AdapterInput) :
    Act.stopScan ∉ (mainRun a).1 := by
  intro he
  unfold mainRun at he
  cases hfd : (find_heart_rate_device a).2 with
  | none =>
    simp only [hfd] at he
    rcases find_heart_rate_device_mem a _ he with h | h | h | ⟨x, h⟩ <;> simp at h
  | some d =>
    simp only [hfd] at he
    simp at he
    rcases he with he | he
    · rcases find_heart_rate_device_mem a _ he with h | h | h | ⟨x, h⟩ <;> simp at h
    · rcases runFromDevice_mem d _ he with h | h | h | h | h | h <;> simp [isLoopEvent] at h

/-- Transport oracle for a full healthy run whose stream holds well-formed
and malformed payloads alike. -/
def streamDevice : Device where
  address := 1
  properties_result := some (some { services := [0x180D], local_name := none })
  is_connected_result := some false
  connect_result := true
  discover_services_result := true
  characteristics := [{ uuid := 0x2A37, notify := true }]
  subscribe_result := true
  notifications_result := some [[0, 72], [], [1], [1, 72, 0]]
  disconnect_result := true

/-- Witness for C4 on a concrete stream containing two malformed payloads. -/
theorem c4_decode_failures_nonfatal_witness :
    (List.filter isLoopEvent (runFromDevice streamDevice).1).length =
        ([[0, 72], [], [1], [1, 72, 0]] : List (List Byte)).length ∧
      (∀ v ∈ ([[0, 72], [], [1], [1, 72, 0]] : List (List Byte)),
        parse_heart_rate_data v = Except.ok none →
          Act.emitDecodeDiagnostic v ∈ (runFromDevice streamDevice).1) ∧
      Act.disconnect ∈ (runFromDevice streamDevice).1 :=
  c4_decode_failures_nonfatal streamDevice [[0, 72], [], [1], [1, 72, 0]]
    (Or.inr ⟨rfl, rfl⟩) rfl (by decide) rfl rfl

/-- Witness for the amended C5 on the same concrete run: one disconnect
despite the malformed payloads in the stream. -/
theorem c5_disconnect_once_witness :
    countDisconnect (runFromDevice streamDevice).1 = 1 :=
  c5_disconnect_once_on_stream_end streamDevice [[0, 72], [], [1], [1, 72, 0]]
    (Or.inr ⟨rfl, rfl⟩) rfl (by decide) rfl rfl

/-- Transport oracle whose characteristic table has the heart-rate UUID
only without notify, next to an unrelated notifying characteristic. -/
def noNotifyDevice : Device where
  address := 2
  properties_result := some (some { services := [0x180D], local_name := none })
  is_connected_result := some false
  connect_result := true
  discover_services_result := true
  characteristics := [{ uuid := 0x2A37, notify := false }, { uuid := 0x2A38, notify := true }]
  subscribe_result := true
  notifications_result := some []
  disconnect_result := true

/-- Witness for C6 on the concrete no-notify characteristic table. -/
theorem c6_characteristic_unsupported_witness :
    (runFromDevice noNotifyDevice).2 = Except.error RunError.characteristicUnsupported ∧
      Act.subscribe ∉ (runFromDevice noNotifyDevice).1 :=
  c6_characteristic_unsupported noNotifyDevice (Or.inr ⟨rfl, rfl⟩) rfl (by decide)

/-- Transport oracle that already reports the peripheral as connected. -/
def alreadyConnectedDevice : Device where
  address := 3
  properties_result := some (some { services := [0x180D], local_name := none })
  is_connected_result := some true
  connect_result := false
  discover_services_result := true
  characteristics := [{ uuid := 0x2A37, notify := true }]
  subscribe_result := true
  notifications_result := some [[0, 75]]
  disconnect_result := true

/-- Witness for C7 on the concrete already-connected device. -/
theorem c7_connect_idempotent_witness :
    (∀ ad, Act.connect ad ∉ (runFromDevice alreadyConnectedDevice).1) ∧
      Act.discoverServices ∈ (runFromDevice alreadyConnectedDevice).1 :=
  c7_connect_idempotent alreadyConnectedDevice rfl

/-- A peripheral advertising only an unrelated service. -/
def otherServiceDevice : Device where
  address := 9
  properties_result := some (some { services := [0x1234], local_name := none })
  is_connected_result := some false
  connect_result := false
  discover_services_result := false
  characteristics := []
  subscribe_result := false
  notifications_result := none
  disconnect_result := false

/-- Adapter oracle whose scan only turns up the unrelated peripheral. -/
def noHRAdapter : AdapterInput where
  start_scan_ok := true
  peripherals_result := some [otherServiceDevice]

/-- Witness for C8 on the concrete adapter with no matching peripheral. -/
theorem c8_no_match_no_connect_witness :
    (find_heart_rate_device noHRAdapter).2 = none ∧
      ∀ ad, Act.connect ad ∉ (mainRun noHRAdapter).1 :=
  c8_no_match_no_connect noHRAdapter [otherServiceDevice] rfl rfl (by decide)
